import Mathlib

/-!
Verification development for the contact-form email relay of the portfolio
repository.  The model shallowly embeds:

* the deployed serverless relay `netlify/functions/sendEmail.js` (`handler`),
* the alternative relay revision found in `src/unnamed/part_012`
  (`p12handler`), which additionally requires the upstream body text to trim
  to `"OK"`,
* the client contact component `src/components/Contact/Contact.jsx`
  (first revision: `validateForm`, `sendEmailWithRetry` as `clientLoop`,
  `handleSubmit`),
* the composition of the client with the relay (`systemRun`).

JavaScript conventions are made explicit: a missing JSON field or environment
variable is `Option.none`, string truthiness is "not the empty string",
`a || b` on strings keeps `a` when truthy.  Upstream HTTP interactions are
abstracted as a function from attempt number (1-based) to an outcome that is
either a network-level exception or a response with a status and a body text.
-/

namespace Portfolio

/-- JS string truthiness for a possibly-undefined value: `undefined` and `""`
are falsy, every other string is truthy. -/
def truthy : Option String → Bool
  | none => false
  | some s => !(s == "")

/-- JS `a || b` on possibly-undefined strings: keeps `a` when it is truthy. -/
def jsOr (a b : Option String) : Option String :=
  if truthy a then a else b

/-- One upstream interaction of the relay with the EmailJS API: either the
`fetch` (or body read) throws, or a response arrives with an HTTP status and
a body text. -/
inductive Upstream
  | exn : Upstream
  | resp (status : Nat) (text : String) : Upstream

/-- `Response.ok` in the Fetch API: status in the range 200..299. -/
def isOk (status : Nat) : Bool := 200 ≤ status && status < 300

/-- JS `String.prototype.trim()`: removes whitespace from both ends of the
string (modelled over `Char.isWhitespace`). -/
def jsTrim (s : String) : String :=
  ⟨((s.toList.dropWhile Char.isWhitespace).reverse.dropWhile Char.isWhitespace).reverse⟩

/-- The four fields destructured from the parsed JSON request body in
`sendEmail.js` (`const { from_name, reply_to, subject, message } = bodyData`);
a field absent from the JSON is `none`. -/
structure ReqFields where
  from_name : Option String
  reply_to : Option String
  subject : Option String
  message : Option String
deriving DecidableEq

/-- The part of the Netlify `event` the function reads: the HTTP method and
the JSON-parse result of `event.body` (`none` models a body on which
`JSON.parse` throws). -/
structure Event where
  httpMethod : String
  body : Option ReqFields
deriving DecidableEq

/-- The four environment variables read by the relay; an unset variable is
`none`. -/
structure Env where
  SERVICE_ID : Option String
  TEMPLATE_ID : Option String
  PUBLIC_KEY : Option String
  PRIVATE_KEY : Option String
deriving DecidableEq

/-- The JSON object the relay serialises into its HTTP response body:
`JSON.stringify({ error: e })` or
`JSON.stringify({ success: true, message: m })`. -/
inductive RespBody
  | err (error : String) : RespBody
  | ok (message : String) : RespBody
deriving DecidableEq

/-- The object returned by the Netlify handler: `statusCode` and `body`. -/
structure LambdaResponse where
  statusCode : Nat
  body : RespBody
deriving DecidableEq

/-- Observable outcome of one relay invocation: the returned response, the
number of upstream `fetch` calls performed, and the list of backoff waits
(in ms, in order) performed between attempts. -/
structure RunResult where
  response : LambdaResponse
  calls : Nat
  delays : List Nat
deriving DecidableEq

/-- `const MAX_RETRIES = 3` in `sendEmail.js`. -/
def MAX_RETRIES : Nat := 3

/-- `const RETRY_DELAY = 1000` in `sendEmail.js` (base delay, ms). -/
def RETRY_DELAY : Nat := 1000

/-- The `while (attempt < MAX_RETRIES)` loop of the deployed
`sendEmail.js`, lines 71–115.  `attempt` is the value of the JS `attempt`
variable at the loop head and the second argument is the remaining fuel
`MAX_RETRIES - attempt`, so the base case is exactly the loop exiting and
falling through to the 502 return (lines 117–120).

Branches, mirroring the source:
* response ok → return 200 success immediately;
* `status >= 500 && attempt < MAX_RETRIES` → wait `RETRY_DELAY * 2^(attempt-1)`
  and continue;
* any other non-ok response → `throw`, which is caught by the loop's own
  `catch`: it waits the same backoff when `attempt < MAX_RETRIES` and then
  the `while` loop iterates again (so non-5xx failures are also retried);
* a thrown `fetch` (network exception) takes the same `catch` path. -/
def sendLoop (us : Nat → Upstream) : Nat → Nat → RunResult
  | _, 0 =>
    ⟨⟨502, .err "Email service temporarily unavailable. Please try again later."⟩, 0, []⟩
  | attempt, r + 1 =>
    let a := attempt + 1
    match us a with
    | .exn =>
      if a < MAX_RETRIES then
        let d := RETRY_DELAY * 2 ^ (a - 1)
        let rest := sendLoop us a r
        ⟨rest.response, rest.calls + 1, d :: rest.delays⟩
      else
        let rest := sendLoop us a r
        ⟨rest.response, rest.calls + 1, rest.delays⟩
    | .resp status _text =>
      if isOk status then
        ⟨⟨200, .ok "Message sent successfully."⟩, 1, []⟩
      else if 500 ≤ status ∧ a < MAX_RETRIES then
        let d := RETRY_DELAY * 2 ^ (a - 1)
        let rest := sendLoop us a r
        ⟨rest.response, rest.calls + 1, d :: rest.delays⟩
      else if a < MAX_RETRIES then
        let d := RETRY_DELAY * 2 ^ (a - 1)
        let rest := sendLoop us a r
        ⟨rest.response, rest.calls + 1, d :: rest.delays⟩
      else
        let rest := sendLoop us a r
        ⟨rest.response, rest.calls + 1, rest.delays⟩

/-- The deployed relay `netlify/functions/sendEmail.js`: method check, JSON
parse, required-field check (JS truthiness), configuration check with
`API_KEY = PRIVATE_KEY || PUBLIC_KEY`, then the retry loop. -/
def handler (event : Event) (env : Env) (us : Nat → Upstream) : RunResult :=
  if event.httpMethod ≠ "POST" then
    ⟨⟨405, .err "Method Not Allowed. Use POST."⟩, 0, []⟩
  else
    match event.body with
    | none => ⟨⟨400, .err "Invalid request format."⟩, 0, []⟩
    | some b =>
      if !(truthy b.from_name && truthy b.reply_to && truthy b.subject && truthy b.message) then
        ⟨⟨400, .err "Missing required fields."⟩, 0, []⟩
      else
        let API_KEY := jsOr env.PRIVATE_KEY env.PUBLIC_KEY
        if !(truthy env.SERVICE_ID && truthy env.TEMPLATE_ID && truthy API_KEY) then
          ⟨⟨500, .err "Server configuration error."⟩, 0, []⟩
        else
          sendLoop us 0 MAX_RETRIES

/-- The `for (let attempt = 1; attempt <= MAX_RETRIES; attempt++)` loop of the
relay revision in `src/unnamed/part_012`, lines 91–145.  `attempt` is the
attempt counter before entering the iteration (so the iteration uses
`attempt + 1`) and the fuel is `MAX_RETRIES - attempt`.  Differences from the
deployed loop: success additionally requires the trimmed body text to equal
`"OK"`, and a non-ok response that is not a retryable 5xx returns a 502
"rejected the request" response immediately instead of being retried.  The
fuel-0 base is the (unreachable) fall-through past the `for` loop. -/
def p12loop (us : Nat → Upstream) : Nat → Nat → RunResult
  | _, 0 =>
    ⟨⟨502, .err "Email service temporarily unavailable. Please try again later."⟩, 0, []⟩
  | attempt, r + 1 =>
    let a := attempt + 1
    match us a with
    | .exn =>
      if a < MAX_RETRIES then
        let d := RETRY_DELAY * 2 ^ (a - 1)
        let rest := p12loop us a r
        ⟨rest.response, rest.calls + 1, d :: rest.delays⟩
      else
        ⟨⟨502, .err "Email service temporarily unavailable. Please try again later."⟩, 1, []⟩
    | .resp status text =>
      if isOk status && jsTrim text == "OK" then
        ⟨⟨200, .ok "Message sent successfully."⟩, 1, []⟩
      else if 500 ≤ status ∧ a < MAX_RETRIES then
        let d := RETRY_DELAY * 2 ^ (a - 1)
        let rest := p12loop us a r
        ⟨rest.response, rest.calls + 1, d :: rest.delays⟩
      else
        ⟨⟨502, .err "Email service rejected the request. Check configuration and try again."⟩, 1, []⟩

/-- The relay revision in `src/unnamed/part_012`: same method / JSON / field
guards as the deployed handler; the configuration guard is written
`!SERVICE_ID || !TEMPLATE_ID || (!PUBLIC_KEY && !PRIVATE_KEY)`; then the
`for` loop with the body-equals-"OK" success condition. -/
def p12handler (event : Event) (env : Env) (us : Nat → Upstream) : RunResult :=
  if event.httpMethod ≠ "POST" then
    ⟨⟨405, .err "Method Not Allowed. Use POST."⟩, 0, []⟩
  else
    match event.body with
    | none => ⟨⟨400, .err "Invalid request format."⟩, 0, []⟩
    | some b =>
      if !(truthy b.from_name && truthy b.reply_to && truthy b.subject && truthy b.message) then
        ⟨⟨400, .err "Missing required fields."⟩, 0, []⟩
      else
        if !(truthy env.SERVICE_ID) || !(truthy env.TEMPLATE_ID) ||
            (!(truthy env.PUBLIC_KEY) && !(truthy env.PRIVATE_KEY)) then
          ⟨⟨500, .err "Server configuration error."⟩, 0, []⟩
        else
          p12loop us 0 MAX_RETRIES

/-! ## Client contact form (`src/components/Contact/Contact.jsx`, first revision) -/

/-- The entries of the submitted form as collected by
`Object.fromEntries(new FormData(formRef.current).entries())`: the four text
fields plus the hidden honeypot input `bot_field`.  All inputs exist in the
form, so every entry is a (possibly empty) string. -/
structure SubmitData where
  from_name : String
  reply_to : String
  subject : String
  message : String
  bot_field : String
deriving DecidableEq

/-- The `newErrors` object built by `validateForm`: one optional message per
field (a key is present exactly when the field failed validation). -/
structure FormErrors where
  from_name : Option String
  reply_to : Option String
  subject : Option String
  message : Option String
deriving DecidableEq

/-- `Object.keys(validationErrors).length > 0` is false, i.e. no error key
was set. -/
def isEmptyErrors (e : FormErrors) : Bool :=
  e.from_name.isNone && e.reply_to.isNone && e.subject.isNone && e.message.isNone

/-- An empty errors object, `setErrors({})`. -/
def emptyErrors : FormErrors := ⟨none, none, none, none⟩

/-- The character class `[^\s@]` of the email regular expression
`^[^\s@]+@[^\s@]+\.[^\s@]+$`: any character that is neither whitespace
nor `@`. -/
def isLit (c : Char) : Bool := !c.isWhitespace && !(c == '@')

/-- Matches `[^\s@]+` followed by a continuation `k`, with backtracking:
consume one or more `isLit` characters, then the rest must satisfy `k`. -/
def plusThen (k : List Char → Bool) : List Char → Bool
  | [] => false
  | c :: rest => isLit c && (k rest || plusThen k rest)

/-- Matches `\.[^\s@]+$`: a literal dot, then one or more `isLit` characters
reaching the end of the string. -/
def dotTail (l : List Char) : Bool :=
  match l with
  | '.' :: l2 => plusThen (fun l3 => l3.isEmpty) l2
  | _ => false

/-- Matches `@[^\s@]+\.[^\s@]+$`: a literal `@`, then the domain part. -/
def atTail (l : List Char) : Bool :=
  match l with
  | '@' :: l2 => plusThen dotTail l2
  | _ => false

/-- `/^[^\s@]+@[^\s@]+\.[^\s@]+$/.test s`: the anchored email format check of
`validateForm`. -/
def emailRegexTest (s : String) : Bool := plusThen atTail s.toList

/-- `validateForm` of `Contact.jsx` (lines 18–27): each of the four fields is
required to be non-empty after trimming, and a trimmed-non-empty email must
additionally pass the regular-expression format check. -/
def validateForm (d : SubmitData) : FormErrors :=
  { from_name := if jsTrim d.from_name == "" then some "Name is required." else none
  , reply_to :=
      if jsTrim d.reply_to == "" then some "Email is required."
      else if !(emailRegexTest d.reply_to) then some "Invalid email format." else none
  , subject := if jsTrim d.subject == "" then some "Subject is required." else none
  , message := if jsTrim d.message == "" then some "Message cannot be empty." else none }

/-- The relay response body as the client sees it after
`response.json().catch(() => ({ success: false }))`: the truthiness of
`result?.success` and the optional `result?.error` string. -/
structure RelayBody where
  success : Bool
  error : Option String
deriving DecidableEq

/-- One client `fetch` of the relay endpoint: either the fetch throws, or a
response arrives with a status and a JSON-parse result of its body (`none`
models a body that is not JSON, which the `.catch` replaces by
`{ success: false }`). -/
inductive FetchOutcome
  | exn : FetchOutcome
  | resp (status : Nat) (json : Option RelayBody) : FetchOutcome

/-- Observable outcome of `sendEmailWithRetry`: the returned
`{ success, error }` object (the error of an exhausted run is the message of
the last caught exception, abstracted to `none` for a network exception), the
number of `fetch` calls performed and the backoff waits performed. -/
structure SendOutcome where
  success : Bool
  error : Option String
  calls : Nat
  backoffs : List Nat
deriving DecidableEq

/-- JS `a || b` for an optional string against a default: keeps `a` when it
is a non-empty string. -/
def jsOrStr (a : Option String) (b : String) : String :=
  match a with
  | some s => if s == "" then b else s
  | none => b

/-- The `while (attempt < maxRetries)` loop of `sendEmailWithRetry`
(`Contact.jsx` lines 43–78) with the default arguments `maxRetries = 3`,
`delay = 1000`.  The first argument of the recursion is the JS `attempt`
counter (incremented only in the `catch` block, i.e. it counts failures), the
second is the remaining fuel `maxRetries - attempt`, and the third is the
current `lastError`.  Branches, mirroring the source:

* `response.ok && result?.success` → return `{ success: true }`;
* `response.status >= 500` → `throw new Error(result?.error || ...)`, caught
  by the loop's `catch`: record the error, increment `attempt`, wait
  `delay * 2^(attempt-1)` when another attempt remains, and loop;
* any other response → return `{ success: false, error: result?.error ||
  "Email failed" }` immediately (no retry);
* a thrown `fetch` takes the same `catch` path (its `Error` object is
  abstracted as `none`).

The fuel-0 base is the loop exiting and returning
`{ success: false, error: lastError }`. -/
def clientLoop (fr : Nat → FetchOutcome) : Nat → Nat → Option String → SendOutcome
  | _, 0, lastError => ⟨false, lastError, 0, []⟩
  | attempt, r + 1, _lastError =>
    match fr (attempt + 1) with
    | .resp status json =>
      let result := json.getD ⟨false, none⟩
      if isOk status && result.success then
        ⟨true, none, 1, []⟩
      else if 500 ≤ status then
        let err := some (jsOrStr result.error "Server error, retrying...")
        let a := attempt + 1
        if a < 3 then
          let backoff := 1000 * 2 ^ (a - 1)
          let rest := clientLoop fr a r err
          ⟨rest.success, rest.error, rest.calls + 1, backoff :: rest.backoffs⟩
        else
          let rest := clientLoop fr a r err
          ⟨rest.success, rest.error, rest.calls + 1, rest.backoffs⟩
      else
        ⟨false, some (jsOrStr result.error "Email failed"), 1, []⟩
    | .exn =>
      let a := attempt + 1
      if a < 3 then
        let backoff := 1000 * 2 ^ (a - 1)
        let rest := clientLoop fr a r none
        ⟨rest.success, rest.error, rest.calls + 1, backoff :: rest.backoffs⟩
      else
        let rest := clientLoop fr a r none
        ⟨rest.success, rest.error, rest.calls + 1, rest.backoffs⟩

/-- `sendEmailWithRetry(data)` with its default `maxRetries = 3`,
`delay = 1000`: run the loop from `attempt = 0` with no last error. -/
def sendEmailWithRetry (fr : Nat → FetchOutcome) : SendOutcome :=
  clientLoop fr 0 3 none

/-- Observable outcome of one `handleSubmit` invocation: the final `status`
state (`message`, `type`), the final `errors` state, whether
`formRef.current.reset()` was called, the final `loading` flag, and the
number of `fetch` calls made to the relay endpoint. -/
structure SubmitResult where
  statusMessage : String
  statusType : String
  errors : FormErrors
  reset : Bool
  loading : Bool
  relayCalls : Nat
deriving DecidableEq

/-- `handleSubmit` of `Contact.jsx` (first revision, lines 81–127), as a
function of the submitted form data, the `errors` and `loading` state at
submission time, and the behaviour of the relay endpoint.

* Truthy `bot_field` (honeypot): set a success status, reset the form and
  return — no validation, no network call, `loading` untouched.
* Validation errors: set them, set an error status and return — no call.
* Otherwise clear errors and status, `setLoading(true)`, run
  `sendEmailWithRetry`; on `{success: true}` set the success status and reset
  the form; otherwise the thrown error reaches the `catch`, which sets the
  failure status (the form is not reset); the `finally` sets `loading` back
  to `false`. -/
def handleSubmit (d : SubmitData) (errors0 : FormErrors) (loading0 : Bool)
    (fr : Nat → FetchOutcome) : SubmitResult :=
  if !(d.bot_field == "") then
    ⟨"Message sent successfully!", "success", errors0, true, loading0, 0⟩
  else
    let validationErrors := validateForm d
    if !(isEmptyErrors validationErrors) then
      ⟨"Please correct the highlighted fields.", "error", validationErrors, false, loading0, 0⟩
    else
      let result := sendEmailWithRetry fr
      if result.success then
        ⟨"✅ Message sent successfully! I’ll get back to you soon — thank you.",
         "success", emptyErrors, true, false, result.calls⟩
      else
        ⟨"⚠️ Failed to send message after multiple attempts. Please try again later or email directly using the address below.",
         "error", emptyErrors, false, false, result.calls⟩

/-- The `mailto:` address of the direct-contact fallback link rendered in the
`contact-footer` of `Contact.jsx` (`Direct email: businessdash01@gmail.com`). -/
def fallbackDirectEmail : String := "businessdash01@gmail.com"

/-! ## Composition of the client with the deployed relay -/

/-- How a relay `LambdaResponse` is observed by the client after
`response.json()`: both relay body shapes are JSON, an `{ error: e }` body
has falsy `success` and error `e`, a `{ success: true, message: m }` body has
truthy `success` and no `error` key. -/
def toFetchOutcome (r : LambdaResponse) : FetchOutcome :=
  .resp r.statusCode (some (match r.body with
    | .err e => ⟨false, some e⟩
    | .ok _ => ⟨true, none⟩))

/-- The relay `event` produced by the client's
`fetch("/.netlify/functions/sendEmail", { method: "POST", body:
JSON.stringify({...data}) })`: a POST whose JSON body carries the four form
fields (the relay destructures only these; the serialised `bot_field` entry
is ignored by it). -/
def submissionEvent (d : SubmitData) : Event :=
  ⟨"POST", some ⟨some d.from_name, some d.reply_to, some d.subject, some d.message⟩⟩

/-- The relay endpoint as the client sees it, when relay invocation `i` meets
the upstream behaviour `us i`: each client fetch runs the deployed handler on
the submitted data. -/
def systemFetch (d : SubmitData) (env : Env) (us : Nat → Nat → Upstream) :
    Nat → FetchOutcome :=
  fun i => toFetchOutcome (handler (submissionEvent d) env (us i)).response

/-- One full client submission against the deployed relay. -/
def systemRun (d : SubmitData) (errors0 : FormErrors) (loading0 : Bool) (env : Env)
    (us : Nat → Nat → Upstream) : SubmitResult :=
  handleSubmit d errors0 loading0 (systemFetch d env us)

/-- Total number of upstream (EmailJS) calls performed during one full client
submission: the sum, over the relay invocations the client actually made, of
the upstream calls of each invocation. -/
def systemUpstreamCalls (d : SubmitData) (errors0 : FormErrors) (loading0 : Bool)
    (env : Env) (us : Nat → Nat → Upstream) : Nat :=
  ((List.range (systemRun d errors0 loading0 env us).relayCalls).map
    (fun i => (handler (submissionEvent d) env (us (i + 1))).calls)).sum

/-! ## Claim-side predicates -/

/-- The client-side acceptance condition of a submission, as the spec states
it: honeypot empty, all four required fields non-empty after trimming, and
the email passes the format check. -/
def clientAccepts (d : SubmitData) : Bool :=
  d.bot_field == "" &&
  !(jsTrim d.from_name == "") &&
  !(jsTrim d.reply_to == "") && emailRegexTest d.reply_to &&
  !(jsTrim d.subject == "") && !(jsTrim d.message == "")

/-- The guards a relay request must pass to reach the upstream retry loop:
POST method, parseable JSON body, all four fields truthy, and a complete
configuration.  (The deployed handler and the `part_012` revision test the
configuration with syntactically different but equivalent expressions.) -/
def guardsPass (e : Event) (env : Env) : Bool :=
  e.httpMethod == "POST" &&
  (match e.body with
   | none => false
   | some b => truthy b.from_name && truthy b.reply_to && truthy b.subject && truthy b.message) &&
  truthy env.SERVICE_ID && truthy env.TEMPLATE_ID &&
  (truthy env.PRIVATE_KEY || truthy env.PUBLIC_KEY)

/-- The part of an upstream interaction the deployed relay's control flow and
output can depend on: whether it threw, and the status if not.  The body text
is erased. -/
def shape : Upstream → Option Nat
  | .exn => none
  | .resp s _ => some s

/-- The fixed set of response bodies the deployed relay can ever produce
(every message is generic; none embeds upstream response text). -/
def genericBodies : List RespBody :=
  [ .err "Method Not Allowed. Use POST."
  , .err "Invalid request format."
  , .err "Missing required fields."
  , .err "Server configuration error."
  , .ok "Message sent successfully."
  , .err "Email service temporarily unavailable. Please try again later."
  , .err "Internal server error. Please try again later." ]

/-- A run is classified as success when the relay answers the client with
HTTP 200. -/
def isSuccessRun (r : RunResult) : Bool := r.response.statusCode == 200

/-- Whether some attempt in the next `fuel` attempts (after `attempt`) gets
an HTTP-ok upstream response — exactly when the deployed loop, which retries
every failure while attempts remain, ends in success. -/
def existsOkFrom (us : Nat → Upstream) : Nat → Nat → Bool
  | _, 0 => false
  | attempt, r + 1 =>
    match us (attempt + 1) with
    | .exn => existsOkFrom us (attempt + 1) r
    | .resp s _ => if isOk s then true else existsOkFrom us (attempt + 1) r

/-- The trimmed body text of the first HTTP-ok upstream response among
attempts `attempt+1 ..` within `fuel` attempts, if any. -/
def firstOkAux (us : Nat → Upstream) : Nat → Nat → Option String
  | _, 0 => none
  | attempt, r + 1 =>
    match us (attempt + 1) with
    | .exn => firstOkAux us (attempt + 1) r
    | .resp s t => if isOk s then some (jsTrim t) else firstOkAux us (attempt + 1) r

/-- The trimmed body text of the first HTTP-ok upstream response within the
`MAX_RETRIES` attempts a relay run can make, if any. -/
def firstOkTrimmedBody (us : Nat → Upstream) : Option String :=
  firstOkAux us 0 MAX_RETRIES

/-- The exact condition under which the deployed loop and the `part_012` loop
classify a run differently (deployed success, `part_012` failure), scanning
the attempts: retryable failures (exception or 5xx) are skipped by both; an
HTTP-ok response diverges exactly when its trimmed body differs from `"OK"`;
a non-ok non-5xx response (e.g. 4xx) is terminal for `part_012` but retried
by the deployed loop, so it diverges exactly when a later attempt in reach is
HTTP-ok. -/
def scanDiverge (us : Nat → Upstream) : Nat → Nat → Bool
  | _, 0 => false
  | attempt, r + 1 =>
    match us (attempt + 1) with
    | .exn => scanDiverge us (attempt + 1) r
    | .resp s t =>
      if isOk s then !(jsTrim t == "OK")
      else if 500 ≤ s then scanDiverge us (attempt + 1) r
      else existsOkFrom us (attempt + 1) r

/-- The conditions under which `sendEmailWithRetry` ever performs another
attempt: the fetch threw, or the response status was 5xx.  (A non-ok non-5xx
response returns immediately; an ok response either succeeds or returns a
terminal failure.) -/
def retriable : FetchOutcome → Bool
  | .exn => true
  | .resp s _ => decide (500 ≤ s)

/-! ## Shared lemmas -/

lemma truthy_jsOr (a b : Option String) : truthy (jsOr a b) = (truthy a || truthy b) := by
  unfold jsOr
  cases h : truthy a <;> simp [h]

lemma sendLoop_calls_pos (us : Nat → Upstream) (a r : Nat) :
    1 ≤ (sendLoop us a (r + 1)).calls := by
  show 1 ≤ (sendLoop us a (r + 1)).calls
  cases h : us (a + 1) <;> simp only [sendLoop, h] <;> split_ifs <;> simp

lemma clientLoop_calls_pos (fr : Nat → FetchOutcome) (a r : Nat) (le : Option String) :
    1 ≤ (clientLoop fr a (r + 1) le).calls := by
  cases h : fr (a + 1) <;> simp only [clientLoop, h] <;> split_ifs <;> simp

lemma handler_eq_sendLoop (e : Event) (env : Env) (us : Nat → Upstream)
    (hg : guardsPass e env = true) : handler e env us = sendLoop us 0 MAX_RETRIES := by
  rcases e with ⟨m, _ | b⟩
  · simp [guardsPass] at hg
  · simp only [guardsPass, Bool.and_eq_true, beq_iff_eq] at hg
    obtain ⟨⟨⟨⟨hm, hf⟩, hS⟩, hT⟩, hK⟩ := hg
    simp [handler, hm, hf, hS, hT, hK, truthy_jsOr]

lemma p12handler_eq_p12loop (e : Event) (env : Env) (us : Nat → Upstream)
    (hg : guardsPass e env = true) : p12handler e env us = p12loop us 0 MAX_RETRIES := by
  rcases e with ⟨m, _ | b⟩
  · simp [guardsPass] at hg
  · simp only [guardsPass, Bool.and_eq_true, beq_iff_eq] at hg
    obtain ⟨⟨⟨⟨hm, hf⟩, hS⟩, hT⟩, hK⟩ := hg
    rcases Bool.or_eq_true_iff.mp hK with hP | hU
    · simp [p12handler, hm, hf, hS, hT, hP]
    · simp [p12handler, hm, hf, hS, hT, hU]

/-! ## C1 -/

/-- C1 (code bug): the claim — backed by the code's own comment
"Stop retrying for 4xx errors" — says a 4xx upstream response is terminal
after exactly 1 upstream call; but the `throw` for the 4xx case is caught by
the retry loop's own `catch`, which retries while attempts remain.  On a
valid POST with valid configuration and an upstream answering 400 on every
attempt, the deployed relay performs 3 upstream calls, waiting 1000ms and
2000ms in between, before returning the generic 502 failure. -/
theorem c1_relay_retries_4xx_upstream :
    handler ⟨"POST", some ⟨some "A", some "a@b.com", some "S", some "M"⟩⟩
        ⟨some "svc", some "tpl", some "pub", some "priv"⟩
        (fun _ => .resp 400 "Bad Request") =
      ⟨⟨502, .err "Email service temporarily unavailable. Please try again later."⟩,
        3, [1000, 2000]⟩ := by
  rfl

/-! ## C6 -/

/-- C6: for every POST request with all four fields present (truthy), a
missing configuration value — no service id, no template id, or neither
credential — makes the deployed relay return the 500 "Server configuration
error." response having performed zero upstream calls. -/
theorem c6_missing_config_no_upstream (e : Event) (env : Env) (us : Nat → Upstream)
    (b : ReqFields) (hm : e.httpMethod = "POST") (hb : e.body = some b)
    (hf : (truthy b.from_name && truthy b.reply_to && truthy b.subject && truthy b.message) = true)
    (hc : (truthy env.SERVICE_ID && truthy env.TEMPLATE_ID &&
            (truthy env.PRIVATE_KEY || truthy env.PUBLIC_KEY)) = false) :
    handler e env us = ⟨⟨500, .err "Server configuration error."⟩, 0, []⟩ := by
  simp only [handler, hm, hb, hf, truthy_jsOr]
  simp [hc]

/-- Witness for C6: a concrete valid POST with an environment that has only a
template id configured. -/
theorem c6_missing_config_no_upstream_witness :
    handler ⟨"POST", some ⟨some "A", some "a@b.com", some "S", some "M"⟩⟩
        ⟨none, some "tpl", none, none⟩ (fun _ => .resp 200 "OK") =
      ⟨⟨500, .err "Server configuration error."⟩, 0, []⟩ :=
  c6_missing_config_no_upstream _ _ _ _ rfl rfl (by decide) (by decide)

/-! ## C4 -/

/-- C4: whenever the hidden honeypot field is non-empty, `handleSubmit`
immediately reports success, resets the form and performs zero network
calls — whatever the other field values are (they are not even validated). -/
theorem c4_honeypot_short_circuit (d : SubmitData) (errors0 : FormErrors)
    (loading0 : Bool) (fr : Nat → FetchOutcome) (h : d.bot_field ≠ "") :
    handleSubmit d errors0 loading0 fr =
      ⟨"Message sent successfully!", "success", errors0, true, loading0, 0⟩ := by
  simp [handleSubmit, h]

/-- Witness for C4: a bot-filled submission whose other fields are all
invalid still yields the immediate success outcome with zero calls. -/
theorem c4_honeypot_short_circuit_witness :
    (⟨"", "not-an-email", "", "", "I am a bot"⟩ : SubmitData).bot_field ≠ "" ∧
    handleSubmit ⟨"", "not-an-email", "", "", "I am a bot"⟩ emptyErrors false (fun _ => .exn) =
      ⟨"Message sent successfully!", "success", emptyErrors, true, false, 0⟩ :=
  ⟨by decide, c4_honeypot_short_circuit _ _ _ _ (by decide)⟩

/-! ## C3 -/

/-- C3: for every valid request (guards passing), if the upstream answers
with 5xx statuses on attempts 1 and 2 and an HTTP-ok status on attempt 3,
the deployed relay returns the 200 success response, makes exactly 3
upstream calls, and waits `RETRY_DELAY * 2^(attempt-1)` before each retry —
1000ms then 2000ms, strictly increasing. -/
theorem c3_two_5xx_then_success (e : Event) (env : Env) (us : Nat → Upstream)
    (s1 s2 s3 : Nat) (t1 t2 t3 : String) (hg : guardsPass e env = true)
    (h1 : us 1 = .resp s1 t1) (h1s : 500 ≤ s1)
    (h2 : us 2 = .resp s2 t2) (h2s : 500 ≤ s2)
    (h3 : us 3 = .resp s3 t3) (h3s : isOk s3 = true) :
    handler e env us =
      ⟨⟨200, .ok "Message sent successfully."⟩, 3,
        [RETRY_DELAY * 2 ^ (1 - 1), RETRY_DELAY * 2 ^ (2 - 1)]⟩ ∧
    (handler e env us).delays = [1000, 2000] ∧
    List.Chain' (fun x y => x < y) (handler e env us).delays := by
  have h1n : isOk s1 = false := by simp only [isOk]; simp; omega
  have h2n : isOk s2 = false := by simp only [isOk]; simp; omega
  have hrun : handler e env us =
      ⟨⟨200, .ok "Message sent successfully."⟩, 3,
        [RETRY_DELAY * 2 ^ (1 - 1), RETRY_DELAY * 2 ^ (2 - 1)]⟩ := by
    rw [handler_eq_sendLoop e env us hg]
    show sendLoop us 0 (2 + 1) = _
    simp only [sendLoop, h1, h2, h3, h1n, h2n, h3s, MAX_RETRIES]
    norm_num [h1s, h2s]
  refine ⟨hrun, ?_, ?_⟩ <;> rw [hrun] <;> simp [RETRY_DELAY]

/-- Witness for C3: concrete request, configuration and a 500/503/200
upstream trace. -/
theorem c3_two_5xx_then_success_witness :
    handler ⟨"POST", some ⟨some "A", some "a@b.com", some "S", some "M"⟩⟩
        ⟨some "svc", some "tpl", some "pub", some "priv"⟩
        (fun n => if n == 1 then .resp 500 "err1" else if n == 2 then .resp 503 "err2" else .resp 200 "OK") =
      ⟨⟨200, .ok "Message sent successfully."⟩, 3,
        [RETRY_DELAY * 2 ^ (1 - 1), RETRY_DELAY * 2 ^ (2 - 1)]⟩ ∧
    (handler ⟨"POST", some ⟨some "A", some "a@b.com", some "S", some "M"⟩⟩
        ⟨some "svc", some "tpl", some "pub", some "priv"⟩
        (fun n => if n == 1 then .resp 500 "err1" else if n == 2 then .resp 503 "err2" else .resp 200 "OK")).delays = [1000, 2000] ∧
    List.Chain' (fun x y => x < y)
      (handler ⟨"POST", some ⟨some "A", some "a@b.com", some "S", some "M"⟩⟩
        ⟨some "svc", some "tpl", some "pub", some "priv"⟩
        (fun n => if n == 1 then .resp 500 "err1" else if n == 2 then .resp 503 "err2" else .resp 200 "OK")).delays :=
  c3_two_5xx_then_success _ _ _ 500 503 200 "err1" "err2" "OK" (by decide)
    rfl (by omega) rfl (by omega) rfl (by decide)

/-! ## C5 -/

lemma isEmptyErrors_validateForm (d : SubmitData) :
    isEmptyErrors (validateForm d) =
      (!(jsTrim d.from_name == "") &&
       (!(jsTrim d.reply_to == "") && emailRegexTest d.reply_to) &&
       !(jsTrim d.subject == "") && !(jsTrim d.message == "")) := by
  simp only [validateForm, isEmptyErrors]
  split_ifs <;> simp_all

/-- C5: with the honeypot empty, a submission in which any of the four
required fields trims to the empty string fails validation (`validateForm`
returns a non-empty error object) and `handleSubmit` performs no network
call; and every email value rejected by the format regular expression makes
`validateForm` flag the email field. -/
theorem c5_validation_gates :
    (∀ (d : SubmitData) (errors0 : FormErrors) (loading0 : Bool) (fr : Nat → FetchOutcome),
      d.bot_field = "" →
      (jsTrim d.from_name = "" ∨ jsTrim d.reply_to = "" ∨
       jsTrim d.subject = "" ∨ jsTrim d.message = "") →
      isEmptyErrors (validateForm d) = false ∧
      (handleSubmit d errors0 loading0 fr).relayCalls = 0) ∧
    (∀ d : SubmitData, emailRegexTest d.reply_to = false →
      (validateForm d).reply_to.isSome = true) := by
  constructor
  · intro d errors0 loading0 fr hbot hempty
    have hval : isEmptyErrors (validateForm d) = false := by
      rw [isEmptyErrors_validateForm]
      rcases hempty with h | h | h | h <;> simp [h]
    refine ⟨hval, ?_⟩
    simp [handleSubmit, hbot, hval]
  · intro d h
    simp only [validateForm]
    split_ifs with h1 h2 <;> simp_all

/-- Witness for C5: a whitespace-only subject blocks the submission with a
non-empty error object and zero network calls, and a concrete malformed
email is flagged. -/
theorem c5_validation_gates_witness :
    (isEmptyErrors (validateForm ⟨"A", "a@b.com", " ", "M", ""⟩) = false ∧
      (handleSubmit ⟨"A", "a@b.com", " ", "M", ""⟩ emptyErrors false (fun _ => .exn)).relayCalls = 0) ∧
    (validateForm ⟨"A", "not-an-email", "S", "M", ""⟩).reply_to.isSome = true :=
  ⟨c5_validation_gates.1 ⟨"A", "a@b.com", " ", "M", ""⟩ emptyErrors false (fun _ => .exn)
      (by decide) (by decide),
    c5_validation_gates.2 ⟨"A", "not-an-email", "S", "M", ""⟩ (by decide)⟩

/-! ## C10 -/

lemma clientLoop_retriable (fr : Nat → FetchOutcome) :
    ∀ (r attempt : Nat) (le : Option String) (k : Nat),
      k + 2 ≤ (clientLoop fr attempt r le).calls →
      retriable (fr (attempt + k + 1)) = true := by
  intro r
  induction r with
  | zero => intro attempt le k hk; simp [clientLoop] at hk
  | succ r ih =>
    intro attempt le k hk
    cases hfr : fr (attempt + 1) with
    | exn =>
      simp only [clientLoop, hfr] at hk
      rcases k with _ | k
      · simp [hfr, retriable]
      · have hrest : k + 2 ≤ (clientLoop fr (attempt + 1) r none).calls := by
          by_cases h : attempt + 1 < 3 <;> simp [h] at hk <;> omega
        have := ih (attempt + 1) none k hrest
        simpa [Nat.add_assoc, Nat.add_comm, Nat.add_left_comm] using this
    | resp s j =>
      simp only [clientLoop, hfr] at hk
      by_cases hsj : (isOk s && (j.getD ⟨false, none⟩).success) = true
      · simp [hsj] at hk
      · by_cases h5 : 500 ≤ s
        · rcases k with _ | k
          · simp [retriable, hfr, h5]
          · have hrest : k + 2 ≤ (clientLoop fr (attempt + 1) r
                (some (jsOrStr (j.getD ⟨false, none⟩).error "Server error, retrying..."))).calls := by
              by_cases h : attempt + 1 < 3 <;> simp [hsj, h5, h] at hk <;> omega
            have := ih (attempt + 1) _ k hrest
            simpa [Nat.add_assoc, Nat.add_comm, Nat.add_left_comm] using this
        · simp [hsj, h5] at hk

/-- C10: if the relay endpoint answers the client with an HTTP-ok status
whose body is not JSON or whose parsed JSON lacks a truthy `success`,
`sendEmailWithRetry` returns a terminal failure after exactly 1 fetch with no
backoff wait; and in every run, any attempt that was followed by another
attempt was a 5xx response or a thrown fetch. -/
theorem c10_client_terminal_on_ok_without_success :
    (∀ (fr : Nat → FetchOutcome) (s : Nat) (j : Option RelayBody),
      fr 1 = .resp s j → isOk s = true → (j.getD ⟨false, none⟩).success = false →
      (sendEmailWithRetry fr).success = false ∧
      (sendEmailWithRetry fr).calls = 1 ∧ (sendEmailWithRetry fr).backoffs = []) ∧
    (∀ (fr : Nat → FetchOutcome) (i : Nat), 1 ≤ i → i < (sendEmailWithRetry fr).calls →
      retriable (fr i) = true) := by
  constructor
  · intro fr s j h1 hok hsucc
    have h5 : ¬ 500 ≤ s := by simp only [isOk] at hok; simp at hok; omega
    simp [sendEmailWithRetry, clientLoop, h1, hsucc, h5]
  · intro fr i h1 hi
    have := clientLoop_retriable fr 3 0 none (i - 1) (by
      simp only [sendEmailWithRetry] at hi; omega)
    simpa [Nat.sub_add_cancel h1] using this

/-- Witness for C10: a relay answering 200 with a non-JSON body yields a
terminal failure after one call, and the retried first attempt of an
all-500 run is retriable. -/
theorem c10_client_terminal_on_ok_without_success_witness :
    ((sendEmailWithRetry (fun _ => .resp 200 none)).success = false ∧
      (sendEmailWithRetry (fun _ => .resp 200 none)).calls = 1 ∧
      (sendEmailWithRetry (fun _ => .resp 200 none)).backoffs = []) ∧
    retriable ((fun _ => FetchOutcome.resp 500 none) 1) = true :=
  ⟨c10_client_terminal_on_ok_without_success.1 (fun _ => .resp 200 none) 200 none
      rfl (by decide) (by decide),
    c10_client_terminal_on_ok_without_success.2 (fun _ => .resp 500 none) 1
      (by decide) (by decide)⟩

/-! ## C7 -/

lemma sendLoop_text_irrel (us1 us2 : Nat → Upstream)
    (h : ∀ n, shape (us1 n) = shape (us2 n)) :
    ∀ r a, sendLoop us1 a r = sendLoop us2 a r := by
  intro r
  induction r with
  | zero => intro a; rfl
  | succ r ih =>
    intro a
    have hs := h (a + 1)
    cases h1 : us1 (a + 1) with
    | exn =>
      cases h2 : us2 (a + 1) with
      | exn => simp only [sendLoop, h1, h2, ih]
      | resp s t => rw [h1, h2] at hs; simp [shape] at hs
    | resp s t =>
      cases h2 : us2 (a + 1) with
      | exn => rw [h1, h2] at hs; simp [shape] at hs
      | resp s2 t2 =>
        rw [h1, h2] at hs
        simp only [shape, Option.some.injEq] at hs
        subst hs
        simp only [sendLoop, h1, h2, ih]

lemma handler_text_irrel (e : Event) (env : Env) (us1 us2 : Nat → Upstream)
    (h : ∀ n, shape (us1 n) = shape (us2 n)) :
    handler e env us1 = handler e env us2 := by
  rcases e with ⟨m, _ | b⟩
  · simp only [handler]
  · simp only [handler]
    split_ifs <;> simp [sendLoop_text_irrel us1 us2 h]

lemma sendLoop_body_generic (us : Nat → Upstream) :
    ∀ r a, (sendLoop us a r).response.body ∈ genericBodies := by
  intro r
  induction r with
  | zero => intro a; simp [sendLoop, genericBodies]
  | succ r ih =>
    intro a
    cases h1 : us (a + 1) with
    | exn => simp only [sendLoop, h1]; split_ifs <;> exact ih (a + 1)
    | resp s t =>
      simp only [sendLoop, h1]
      split_ifs
      · simp [genericBodies]
      · exact ih (a + 1)
      · exact ih (a + 1)
      · exact ih (a + 1)

/-- C7: the relay's response never carries upstream detail — two runs whose
upstream interactions differ only in the responses' body texts (same
throw/status shape per attempt) return exactly the same response, and every
response body is drawn from the fixed set of generic messages. -/
theorem c7_response_no_upstream_detail (e : Event) (env : Env)
    (us1 us2 : Nat → Upstream) (h : ∀ n, shape (us1 n) = shape (us2 n)) :
    (handler e env us1).response = (handler e env us2).response ∧
    (handler e env us1).response.body ∈ genericBodies := by
  refine ⟨by rw [handler_text_irrel e env us1 us2 h], ?_⟩
  rcases e with ⟨m, _ | b⟩ <;> simp only [handler] <;> split_ifs <;>
    first
      | exact sendLoop_body_generic us1 MAX_RETRIES 0
      | simp [genericBodies]

/-- Witness for C7: two upstream traces answering 403 with different body
texts produce identical relay responses, drawn from the generic set. -/
theorem c7_response_no_upstream_detail_witness :
    (handler ⟨"POST", some ⟨some "A", some "a@b.com", some "S", some "M"⟩⟩
        ⟨some "svc", some "tpl", some "pub", some "priv"⟩
        (fun _ => .resp 403 "API calls are disabled for non-browser applications")).response =
      (handler ⟨"POST", some ⟨some "A", some "a@b.com", some "S", some "M"⟩⟩
        ⟨some "svc", some "tpl", some "pub", some "priv"⟩
        (fun _ => .resp 403 "account suspended")).response ∧
    (handler ⟨"POST", some ⟨some "A", some "a@b.com", some "S", some "M"⟩⟩
        ⟨some "svc", some "tpl", some "pub", some "priv"⟩
        (fun _ => .resp 403 "API calls are disabled for non-browser applications")).response.body ∈
      genericBodies :=
  c7_response_no_upstream_detail _ _ _ _ (fun _ => rfl)

/-! ## C2 -/

lemma truthy_of_trim (s : String) (h : (jsTrim s == "") = false) :
    truthy (some s) = true := by
  have hs : s ≠ "" := by
    intro hs
    subst hs
    simp [jsTrim] at h
  simp [truthy, hs]

lemma clientAccepts_eq (d : SubmitData) :
    clientAccepts d = ((d.bot_field == "") && isEmptyErrors (validateForm d)) := by
  rw [isEmptyErrors_validateForm]
  unfold clientAccepts
  cases d.bot_field == "" <;> cases jsTrim d.from_name == "" <;>
    cases jsTrim d.reply_to == "" <;> cases emailRegexTest d.reply_to <;>
    cases jsTrim d.subject == "" <;> cases jsTrim d.message == "" <;> rfl

/-- C2: with the relay configuration present, a submission results in at
least one call to the external email API exactly when the honeypot is empty,
all four required fields are non-empty after trimming and the email passes
the format check — in particular no whitespace-only field and no malformed
email is ever forwarded to the upstream API. -/
theorem c2_forwarded_iff_valid (d : SubmitData) (errors0 : FormErrors) (loading0 : Bool)
    (env : Env) (us : Nat → Nat → Upstream)
    (hS : truthy env.SERVICE_ID = true) (hT : truthy env.TEMPLATE_ID = true)
    (hK : (truthy env.PRIVATE_KEY || truthy env.PUBLIC_KEY) = true) :
    0 < systemUpstreamCalls d errors0 loading0 env us ↔ clientAccepts d = true := by
  rw [clientAccepts_eq]
  by_cases hbot : (d.bot_field == "") = true
  · by_cases hval : isEmptyErrors (validateForm d) = true
    · -- the client POSTs: at least one relay invocation happens, and its
      -- first upstream attempt is performed because all guards pass
      have hev : (!(jsTrim d.from_name == "") &&
          (!(jsTrim d.reply_to == "") && emailRegexTest d.reply_to) &&
          !(jsTrim d.subject == "") && !(jsTrim d.message == "")) = true := by
        rw [← isEmptyErrors_validateForm]
        exact hval
      simp only [Bool.and_eq_true] at hev
      have hfn := truthy_of_trim d.from_name (by simpa using hev.1.1.1)
      have hre := truthy_of_trim d.reply_to (by simpa using hev.1.1.2.1)
      have hsu := truthy_of_trim d.subject (by simpa using hev.1.2)
      have hme := truthy_of_trim d.message (by simpa using hev.2)
      have hguards : guardsPass (submissionEvent d) env = true := by
        simp [guardsPass, submissionEvent, hfn, hre, hsu, hme, hS, hT, hK]
      have hcalls1 : 1 ≤ (handler (submissionEvent d) env (us 1)).calls := by
        rw [handler_eq_sendLoop _ _ _ hguards]
        exact sendLoop_calls_pos (us 1) 0 2
      have hrelay : 1 ≤ (systemRun d errors0 loading0 env us).relayCalls := by
        simp only [systemRun, handleSubmit, hbot, hval, Bool.not_true, Bool.not_false,
          Bool.false_eq_true, if_false]
        split_ifs <;> exact clientLoop_calls_pos _ 0 2 none
      obtain ⟨k, hk⟩ : ∃ k, (systemRun d errors0 loading0 env us).relayCalls = k + 1 :=
        ⟨_, (Nat.succ_pred_eq_of_pos hrelay).symm⟩
      simp only [systemUpstreamCalls]
      rw [hk, List.range_succ_eq_map]
      simp only [List.map_cons, List.sum_cons, Nat.zero_add, hbot, hval, Bool.and_self]
      constructor
      · intro _
        trivial
      · intro _
        omega
    · -- a validation error: the client makes no relay call at all
      have hval' : isEmptyErrors (validateForm d) = false := by
        simpa using hval
      simp [systemUpstreamCalls, systemRun, handleSubmit, hbot, hval']
  · -- honeypot filled: the client makes no relay call at all
    have hbot' : (d.bot_field == "") = false := by
      simpa using hbot
    simp [systemUpstreamCalls, systemRun, handleSubmit, hbot']

/-- Witness for C2: a concrete valid submission with full configuration and
an always-200 upstream. -/
theorem c2_forwarded_iff_valid_witness :
    0 < systemUpstreamCalls ⟨"A", "a@b.com", "S", "M", ""⟩ emptyErrors false
        ⟨some "svc", some "tpl", some "pub", some "priv"⟩ (fun _ _ => .resp 200 "OK") ↔
      clientAccepts ⟨"A", "a@b.com", "S", "M", ""⟩ = true :=
  c2_forwarded_iff_valid ⟨"A", "a@b.com", "S", "M", ""⟩ emptyErrors false
    ⟨some "svc", some "tpl", some "pub", some "priv"⟩ (fun _ _ => .resp 200 "OK")
    (by decide) (by decide) (by decide)

/-! ## C8 -/

/-- C8: starting from a non-loading state (the submit button is disabled
while loading), every terminal state of `handleSubmit` resets the form
exactly when it reports a success status; the status message is never empty
(on failure it shows the error message directing to the direct-contact
address); every terminal status is either a success or an error; the loading
flag ends false; and the component's fallback direct-contact address is a
non-empty mailto target. -/
theorem c8_reset_iff_success (d : SubmitData) (errors0 : FormErrors)
    (fr : Nat → FetchOutcome) :
    (handleSubmit d errors0 false fr).reset =
      ((handleSubmit d errors0 false fr).statusType == "success") ∧
    (handleSubmit d errors0 false fr).loading = false ∧
    ((handleSubmit d errors0 false fr).statusMessage == "") = false ∧
    (((handleSubmit d errors0 false fr).statusType == "success") = true ∨
      ((handleSubmit d errors0 false fr).statusType == "error") = true) ∧
    (fallbackDirectEmail == "") = false := by
  simp only [handleSubmit]
  split_ifs <;> simp [fallbackDirectEmail]

/-! ## C9 -/

lemma sendLoop_statusCode (us : Nat → Upstream) :
    ∀ r a, ((sendLoop us a r).response.statusCode == 200) = existsOkFrom us a r := by
  intro r
  induction r with
  | zero => intro a; simp [sendLoop, existsOkFrom]
  | succ r ih =>
    intro a
    cases h1 : us (a + 1) with
    | exn =>
      simp only [sendLoop, existsOkFrom, h1]
      split_ifs <;> exact ih (a + 1)
    | resp s t =>
      simp only [sendLoop, existsOkFrom, h1]
      split_ifs <;> first | exact ih (a + 1) | simp

lemma loop_diverge (us : Nat → Upstream) :
    ∀ r a, a + r = MAX_RETRIES →
      (isSuccessRun (sendLoop us a r) != isSuccessRun (p12loop us a r)) =
        scanDiverge us a r := by
  intro r
  induction r with
  | zero => intro a _; simp [sendLoop, p12loop, scanDiverge, isSuccessRun]
  | succ r ih =>
    intro a hinv
    cases h1 : us (a + 1) with
    | exn =>
      simp only [sendLoop, p12loop, scanDiverge, h1]
      by_cases hlt : a + 1 < MAX_RETRIES
      · simpa [hlt, isSuccessRun] using ih (a + 1) (by omega)
      · have hr0 : r = 0 := by simp [MAX_RETRIES] at hinv hlt; omega
        subst hr0
        simp [hlt, sendLoop, p12loop, scanDiverge, isSuccessRun]
    | resp s t =>
      simp only [sendLoop, p12loop, scanDiverge, h1]
      by_cases hok : isOk s = true
      · have h5 : ¬ 500 ≤ s := by simp [isOk] at hok; omega
        by_cases hOK : (jsTrim t == "OK") = true
        · simp [hok, hOK, isSuccessRun]
        · simp [hok, hOK, h5, isSuccessRun]
      · by_cases h5 : 500 ≤ s
        · by_cases hlt : a + 1 < MAX_RETRIES
          · simpa [hok, h5, hlt, isSuccessRun] using ih (a + 1) (by omega)
          · have hr0 : r = 0 := by simp [MAX_RETRIES] at hinv hlt; omega
            subst hr0
            simp [hok, h5, hlt, sendLoop, p12loop, scanDiverge, isSuccessRun]
        · have hok' : isOk s = false := by simpa using hok
          have hsc := sendLoop_statusCode us r (a + 1)
          cases hx : existsOkFrom us (a + 1) r <;> rw [hx] at hsc <;>
            by_cases hlt : a + 1 < MAX_RETRIES <;>
              simp [hok', h5, hlt, isSuccessRun, hsc, hx]

lemma guardsFail_handlers_eq (e : Event) (env : Env) (us : Nat → Upstream)
    (hg : guardsPass e env = false) : handler e env us = p12handler e env us := by
  rcases e with ⟨m, _ | b⟩
  · simp only [handler, p12handler]
  · by_cases hm : m = "POST"
    · by_cases hf : (truthy b.from_name && truthy b.reply_to &&
          truthy b.subject && truthy b.message) = true
      · have hcfg : (truthy env.SERVICE_ID && truthy env.TEMPLATE_ID &&
            (truthy env.PRIVATE_KEY || truthy env.PUBLIC_KEY)) = false := by
          simp only [guardsPass, hm, hf] at hg
          simp only [Bool.and_eq_false_iff] at hg ⊢
          simpa using hg
        simp only [Bool.and_eq_false_iff, Bool.or_eq_false_iff] at hcfg
        rcases hcfg with (hS | hT) | ⟨hP, hU⟩
        · simp [handler, p12handler, hm, hf, truthy_jsOr, hS]
        · simp [handler, p12handler, hm, hf, truthy_jsOr, hT]
        · simp [handler, p12handler, hm, hf, truthy_jsOr, hP, hU]
      · have hf' : (truthy b.from_name && truthy b.reply_to &&
            truthy b.subject && truthy b.message) = false := by
          simpa using hf
        simp [handler, p12handler, hm, hf']
    · simp [handler, p12handler, hm]

/-- C9 counterexample: a run where the first HTTP-ok upstream response has
trimmed body exactly `"OK"` — so the claim says the two revisions must agree
— yet the deployed handler succeeds (it retries the initial 400) while the
`part_012` revision fails (it treats the 400 as terminal). -/
theorem c9_counterexample :
    firstOkTrimmedBody
        (fun n => if n == 1 then .resp 400 "Bad Request" else .resp 200 "OK") = some "OK" ∧
    isSuccessRun (handler ⟨"POST", some ⟨some "A", some "a@b.com", some "S", some "M"⟩⟩
        ⟨some "svc", some "tpl", some "pub", some "priv"⟩
        (fun n => if n == 1 then .resp 400 "Bad Request" else .resp 200 "OK")) = true ∧
    isSuccessRun (p12handler ⟨"POST", some ⟨some "A", some "a@b.com", some "S", some "M"⟩⟩
        ⟨some "svc", some "tpl", some "pub", some "priv"⟩
        (fun n => if n == 1 then .resp 400 "Bad Request" else .resp 200 "OK")) = false :=
  ⟨by decide, by rfl, by decide⟩

/-- C9 (amended): the deployed handler classifies a run as success exactly
when some reached upstream attempt is HTTP-ok, while the `part_012` revision
also requires the trimmed body `"OK"` and treats non-ok non-5xx responses as
terminal; consequently the two success/failure classifications differ
exactly on runs passing the request/configuration guards in which, scanning
the attempts, the first non-retryable upstream outcome is either an HTTP-ok
response whose trimmed body differs from `"OK"`, or a non-ok non-5xx (e.g.
4xx) response that is followed, within the three attempts, by some HTTP-ok
response; they agree on every other run. -/
theorem c9_amended_divergence (e : Event) (env : Env) (us : Nat → Upstream) :
    isSuccessRun (handler e env us) ≠ isSuccessRun (p12handler e env us) ↔
      (guardsPass e env = true ∧ scanDiverge us 0 MAX_RETRIES = true) := by
  by_cases hg : guardsPass e env = true
  · rw [handler_eq_sendLoop _ _ _ hg, p12handler_eq_p12loop _ _ _ hg]
    have hd := loop_diverge us MAX_RETRIES 0 (by simp)
    simp only [hg, true_and]
    rw [← hd]
    exact bne_iff_ne.symm
  · have hg' : guardsPass e env = false := by simpa using hg
    rw [guardsFail_handlers_eq e env us hg']
    simp [hg]

/-- Witness for C8: the frame property instantiated on a concrete valid
submission whose relay confirms success. -/
theorem c8_reset_iff_success_witness :
    (handleSubmit ⟨"A", "a@b.com", "S", "M", ""⟩ emptyErrors false
        (fun _ => .resp 200 (some ⟨true, none⟩))).reset =
      ((handleSubmit ⟨"A", "a@b.com", "S", "M", ""⟩ emptyErrors false
        (fun _ => .resp 200 (some ⟨true, none⟩))).statusType == "success") ∧
    (handleSubmit ⟨"A", "a@b.com", "S", "M", ""⟩ emptyErrors false
        (fun _ => .resp 200 (some ⟨true, none⟩))).loading = false ∧
    ((handleSubmit ⟨"A", "a@b.com", "S", "M", ""⟩ emptyErrors false
        (fun _ => .resp 200 (some ⟨true, none⟩))).statusMessage == "") = false ∧
    (((handleSubmit ⟨"A", "a@b.com", "S", "M", ""⟩ emptyErrors false
        (fun _ => .resp 200 (some ⟨true, none⟩))).statusType == "success") = true ∨
      ((handleSubmit ⟨"A", "a@b.com", "S", "M", ""⟩ emptyErrors false
        (fun _ => .resp 200 (some ⟨true, none⟩))).statusType == "error") = true) ∧
    (fallbackDirectEmail == "") = false :=
  c8_reset_iff_success ⟨"A", "a@b.com", "S", "M", ""⟩ emptyErrors
    (fun _ => .resp 200 (some ⟨true, none⟩))

/-- Witness for the amended C9: the divergence characterisation instantiated
on a concrete request, configuration and upstream trace (200 with body
`"KO"`: the deployed relay succeeds, `part_012` rejects the body). -/
theorem c9_amended_divergence_witness :
    isSuccessRun (handler ⟨"POST", some ⟨some "A", some "a@b.com", some "S", some "M"⟩⟩
        ⟨some "svc", some "tpl", some "pub", some "priv"⟩ (fun _ => .resp 200 "KO")) ≠
      isSuccessRun (p12handler ⟨"POST", some ⟨some "A", some "a@b.com", some "S", some "M"⟩⟩
        ⟨some "svc", some "tpl", some "pub", some "priv"⟩ (fun _ => .resp 200 "KO")) ↔
      (guardsPass ⟨"POST", some ⟨some "A", some "a@b.com", some "S", some "M"⟩⟩
          ⟨some "svc", some "tpl", some "pub", some "priv"⟩ = true ∧
        scanDiverge (fun _ => .resp 200 "KO") 0 MAX_RETRIES = true) :=
  c9_amended_divergence ⟨"POST", some ⟨some "A", some "a@b.com", some "S", some "M"⟩⟩
    ⟨some "svc", some "tpl", some "pub", some "priv"⟩ (fun _ => .resp 200 "KO")

end Portfolio
